import Mathlib

/-!
Verification development for the ATSC 3.0 L1-signaling core of an
HDHomeRun terminal tool (`hdhomerun_tui.c`).

Shallow embedding conventions:
* Byte buffers are `List Nat` (each entry a byte value 0..255).  The C code
  indexes buffers without bounds checks; the model reads with `List.getD _ 0`
  and separately tracks the final bit offset, so an offset beyond
  `8 * length` witnesses an out-of-bounds access of the C code.
* C shifts and masks on nonnegative values are rendered as `* 2^k`, `/ 2^k`,
  `% 2^k`; the only signed mask in scope, `v & 3` with `v = -1`
  (two's complement), is rendered as `(v % 4).toNat` (`-1 % 4 = 3`).
* `uint64_t` results of `get_bits` never exceed `2^64` for the call widths
  that occur (`num_bits ≤ 64`), so plain `Nat` is exact.
* Strings produced with `snprintf` (`%lu`, `%s`, `0x%08lX`) are rebuilt with
  `Nat.repr`, string append, and an explicit 8-digit uppercase hex printer.
-/

/-! ## Bit cursor reader (`get_bits`, hdhomerun_tui.c lines 2001-2012) -/

/-- One bit of the buffer: `(buffer[p/8] >> (7 - p%8)) & 1`, with the
out-of-range byte read modelled as 0 (the C code reads adjacent memory). -/
def bitAt (data : List Nat) (p : Nat) : Nat :=
  data.getD (p / 8) 0 / 2 ^ (7 - p % 8) % 2

/-- The loop of `get_bits`: `k` bits remain; a set bit at the cursor is ORed
in at position `num_bits - 1 - i`, i.e. weight `2 ^ (k - 1)` when `k` bits
remain (disjoint OR rendered as `+`).  Returns (result, final offset). -/
def getBitsAux (data : List Nat) : Nat → Nat → Nat → Nat × Nat
  | off, 0, acc => (acc, off)
  | off, k + 1, acc => getBitsAux data (off + 1) k (acc + bitAt data off * 2 ^ k)

/-- `get_bits(buffer, &bit_offset, num_bits)`: value of the next `num_bits`
bits (MSB first) and the advanced offset. -/
def get_bits (data : List Nat) (off num_bits : Nat) : Nat × Nat :=
  getBitsAux data off num_bits 0

/-- Value part of `get_bits`. -/
def bitsVal (data : List Nat) (off n : Nat) : Nat :=
  (get_bits data off n).1

/-- Specification-side MSB-first value of `n` bits starting at `off`
(Horner form), used to state correctness of `get_bits` independently. -/
def msbValue (data : List Nat) (off n : Nat) : Nat :=
  (List.range n).foldl (fun acc i => 2 * acc + bitAt data (off + i)) 0

/-! ## A/322 enumeration string tables (lines 2016-2028) -/

def L1B_papr_reduction_map : List String :=
  ["None", "TR-PAPR", "L-PAPR", "Reserved"]

def L1B_L1_Detail_fec_type_map : List String :=
  ["BCH+LDPC 16K", "BCH+LDPC 64K", "CRC+LDPC 16K", "CRC+LDPC 64K",
   "LDPC 16K", "LDPC 64K", "Reserved", "Reserved"]

def L1B_L1_Detail_additional_parity_mode_map : List String :=
  ["0%", "2.5%", "5%", "7.5%"]

def L1B_first_sub_fft_size_map : List String :=
  ["8K", "16K", "32K", "Reserved"]

def L1B_first_sub_guard_interval_map : List String :=
  ["GI_1/192", "GI_2/384", "GI_3/384", "GI_4/384", "GI_6/384", "GI_7/384",
   "GI_8/384", "GI_9/384", "GI_10/384", "GI_12/384", "GI_13/384", "GI_14/384",
   "GI_15/384", "GI_16/384", "GI_18/384", "GI_20/384"]

def L1B_first_sub_scattered_pilot_boost_map : List String :=
  ["0dB", "3dB", "4.77dB", "6dB", "7.78dB", "9.54dB", "Reserved", "Reserved"]

def L1D_plp_fec_type_map : List String :=
  ["BCH+LDPC 16K", "BCH+LDPC 64K", "CRC+LDPC 16K", "CRC+LDPC 64K",
   "LDPC 16K (no BCH)", "LDPC 64K (no BCH)", "Reserved", "Reserved",
   "BCH+LDPC 16K", "BCH+LDPC 64K", "CRC+LDPC 16K", "CRC+LDPC 64K",
   "LDPC 16K", "LDPC 64K", "Reserved", "Reserved"]

def L1D_plp_mod_map : List String :=
  ["QPSK", "16-QAM", "64-QAM", "256-QAM", "1024-QAM", "4096-QAM", "N/A", "N/A",
   "QPSK", "16-QAM", "64-QAM", "256-QAM", "1024-QAM", "4096-QAM", "N/A", "N/A"]

def L1D_plp_cod_map : List String :=
  ["2/15", "3/15", "4/15", "5/15", "6/15", "7/15", "8/15", "9/15",
   "10/15", "11/15", "12/15", "13/15", "N/A", "N/A", "N/A", "N/A"]

/-! ## The L1 decoder state (`parse_l1_data`, lines 2034-2266)

The C routine threads `bit_offset` and appends formatted lines through the
`add_line` macro (which drops lines once `*line_count` reaches `max_lines`).
The state carries the offset, the line count and the emitted lines in
reverse order. -/

structure L1St where
  off : Nat
  cnt : Nat
  rev : List String
deriving DecidableEq

/-- The `add_line` macro: append a line unless `max_lines` is reached. -/
def addLine (maxL : Nat) (s : String) (st : L1St) : L1St :=
  if st.cnt < maxL then { st with cnt := st.cnt + 1, rev := s :: st.rev } else st

/-- A `get_bits(data, &bit_offset, n)` call against the threaded state. -/
def rd (data : List Nat) (n : Nat) (st : L1St) : Nat × L1St :=
  let p := get_bits data st.off n
  (p.1, { st with off := p.2 })

/-- Uppercase hexadecimal digit. -/
def hexDigit (n : Nat) : Char :=
  if n < 10 then Char.ofNat (48 + n) else Char.ofNat (55 + n)

/-- `snprintf` with format `0x%08lX` for values below `2^32`: 8 zero-padded
uppercase hex digits (without the `0x`, which the callers put in the label). -/
def hex8 (v : Nat) : String :=
  String.mk ((List.range 8).map (fun k => hexDigit (v / 16 ^ (7 - k) % 16)))

/-- RF loop (lines 2103-2106): `L1D_bonded_bsid[rf_id]` plus 3 reserved bits,
for `rf_id` from `rfId` while `fuel` iterations remain. -/
def rfLoop (data : List Nat) (maxL : Nat) : Nat → Nat → L1St → L1St
  | _, 0, st => st
  | rfId, k + 1, st =>
    let (v, st) := rd data 16 st
    let st := addLine maxL ("  L1D_bonded_bsid[" ++ Nat.repr rfId ++ "]: " ++ Nat.repr v) st
    let (_, st) := rd data 3 st
    rfLoop data maxL (rfId + 1) k st

/-- Channel-bonding inner loop (lines 2183-2185). -/
def bondedLoop (data : List Nat) (maxL : Nat) : Nat → Nat → L1St → L1St
  | _, 0, st => st
  | kId, k + 1, st =>
    let (v, st) := rd data 3 st
    let st := addLine maxL ("        L1D_plp_bonded_rf_id[" ++ Nat.repr kId ++ "]: " ++ Nat.repr v) st
    bondedLoop data maxL (kId + 1) k st

/-- HTI per-TI-block loop (lines 2217-2219). -/
def htiLoop (data : List Nat) (maxL : Nat) : Nat → Nat → L1St → L1St
  | _, 0, st => st
  | kId, k + 1, st =>
    let (v, st) := rd data 12 st
    let st := addLine maxL ("        L1D_plp_HTI_num_fec_blocks[" ++ Nat.repr kId ++ "]: " ++ Nat.repr v) st
    htiLoop data maxL (kId + 1) k st

/-- HTI field group (lines 2208-2222, the `L1D_plp_TI_mode == 2` branch). -/
def htiBlock (data : List Nat) (maxL : Nat) (st : L1St) : L1St :=
  let (inter, st) := rd data 1 st
  let st := addLine maxL ("      L1D_plp_HTI_inter_subframe: " ++ Nat.repr inter) st
  let (ntib, st) := rd data 4 st
  let st := addLine maxL ("      L1D_plp_HTI_num_ti_blocks: " ++ Nat.repr ntib) st
  let (v, st) := rd data 12 st
  let st := addLine maxL ("      L1D_plp_HTI_num_fec_blocks_max: " ++ Nat.repr v) st
  let st :=
    if inter = 0 then
      let (v, st) := rd data 12 st
      addLine maxL ("      L1D_plp_HTI_num_fec_blocks: " ++ Nat.repr v) st
    else
      htiLoop data maxL 0 (ntib + 1) st
  let (v, st) := rd data 1 st
  addLine maxL ("      L1D_plp_HTI_cell_interleaver: " ++ Nat.repr v) st

/-- One PLP record (lines 2150-2226, body for index `j`).  `i` is the
subframe index; `fsMimo` is `L1B_first_sub_mimo`, `numRf` is `L1D_num_rf`,
`mimo` is this subframe's `L1D_mimo` (0 for the first subframe). -/
def plpBody (data : List Nat) (maxL i fsMimo numRf mimo j : Nat) (st : L1St) : L1St :=
  let st := addLine maxL ("    PLP #" ++ Nat.repr j ++ ":") st
  let (v, st) := rd data 6 st
  let st := addLine maxL ("      L1D_plp_id: " ++ Nat.repr v) st
  let (v, st) := rd data 1 st
  let st := addLine maxL ("      L1D_plp_lls_flag: " ++ Nat.repr v) st
  let (layer, st) := rd data 2 st
  let st := addLine maxL ("      L1D_plp_layer: " ++ Nat.repr layer) st
  let (v, st) := rd data 24 st
  let st := addLine maxL ("      L1D_plp_start: " ++ Nat.repr v) st
  let (v, st) := rd data 24 st
  let st := addLine maxL ("      L1D_plp_size: " ++ Nat.repr v) st
  let (v, st) := rd data 2 st
  let st := addLine maxL ("      L1D_plp_scrambler_type: " ++ Nat.repr v) st
  let (fec, st) := rd data 4 st
  let st := addLine maxL ("      L1D_plp_fec_type: " ++ L1D_plp_fec_type_map.getD fec "") st
  -- uint64_t L1D_plp_mod = 0; read only when fec ≤ 5
  let (pmod, st) :=
    if fec ≤ 5 then
      let (m, st) := rd data 4 st
      let st := addLine maxL ("      L1D_plp_mod: " ++ L1D_plp_mod_map.getD m "") st
      let (c, st) := rd data 4 st
      let st := addLine maxL ("      L1D_plp_cod: " ++ L1D_plp_cod_map.getD c "") st
      (m, st)
    else (0, st)
  let (ti, st) := rd data 2 st
  let st := addLine maxL ("      L1D_plp_TI_mode: " ++ Nat.repr ti) st
  let st :=
    if ti = 0 then
      let (v, st) := rd data 15 st
      addLine maxL ("      L1D_plp_fec_block_start: " ++ Nat.repr v) st
    else if ti = 1 then
      let (v, st) := rd data 22 st
      addLine maxL ("      L1D_plp_CTI_fec_block_start: " ++ Nat.repr v) st
    else st
  let st :=
    if 0 < numRf then
      let (nb, st) := rd data 3 st
      let st := addLine maxL ("      L1D_plp_num_channel_bonded: " ++ Nat.repr nb) st
      if 0 < nb then
        let (v, st) := rd data 2 st
        let st := addLine maxL ("      L1D_plp_channel_bonding_format: " ++ Nat.repr v) st
        bondedLoop data maxL 0 nb st
      else st
    else st
  let st :=
    if (i = 0 ∧ fsMimo = 1) ∨ (0 < i ∧ mimo = 1) then
      let (v, st) := rd data 1 st
      let st := addLine maxL ("      L1D_plp_mimo_stream_combining: " ++ Nat.repr v) st
      let (v, st) := rd data 1 st
      let st := addLine maxL ("      L1D_plp_mimo_IQ_interleaving: " ++ Nat.repr v) st
      let (v, st) := rd data 1 st
      addLine maxL ("      L1D_plp_mimo_PH: " ++ Nat.repr v) st
    else st
  if layer = 0 then
    let (ptype, st) := rd data 1 st
    let st := addLine maxL ("      L1D_plp_type: " ++ Nat.repr ptype) st
    let st :=
      if ptype = 1 then
        let (v, st) := rd data 14 st
        let st := addLine maxL ("      L1D_plp_num_subslices: " ++ Nat.repr v) st
        let (v, st) := rd data 24 st
        addLine maxL ("      L1D_plp_subslice_interval: " ++ Nat.repr v) st
      else st
    let st :=
      if (ti = 1 ∨ ti = 2) ∧ pmod = 0 then
        let (v, st) := rd data 1 st
        addLine maxL ("      L1D_plp_TI_extended_interleaving: " ++ Nat.repr v) st
      else st
    if ti = 1 then
      let (v, st) := rd data 3 st
      let st := addLine maxL ("      L1D_plp_CTI_depth: " ++ Nat.repr v) st
      let (v, st) := rd data 11 st
      addLine maxL ("      L1D_plp_CTI_start_row: " ++ Nat.repr v) st
    else if ti = 2 then
      htiBlock data maxL st
    else st
  else
    let (v, st) := rd data 5 st
    addLine maxL ("      L1D_plp_ldm_injection_level: " ++ Nat.repr v) st

/-- PLP loop: `for (j = 0; j <= L1D_num_plp; j++)`, run as a countdown. -/
def plpLoop (data : List Nat) (maxL i fsMimo numRf mimo : Nat) : Nat → Nat → L1St → L1St
  | _, 0, st => st
  | j, k + 1, st =>
    plpLoop data maxL i fsMimo numRf mimo (j + 1) k
      (plpBody data maxL i fsMimo numRf mimo j st)

/-- One subframe (lines 2118-2148 and the nested PLP loop).  Captured
L1-Basic values are passed in: `nsub = L1B_num_subframes`,
`fsMimo`, `fsSbsFirst`, `fsSbsLast` from the first-subframe block,
`numRf = L1D_num_rf`. -/
def subframeBody (data : List Nat) (maxL nsub fsMimo fsSbsFirst fsSbsLast numRf i : Nat)
    (st : L1St) : L1St :=
  let st := addLine maxL " " st
  let st := addLine maxL ("Subframe #" ++ Nat.repr i ++ ":") st
  let (mimo, sbsF, sbsL, st) :=
    if 0 < i then
      let (mimo, st) := rd data 1 st
      let st := addLine maxL ("  L1D_mimo: " ++ Nat.repr mimo) st
      let (v, st) := rd data 2 st
      let st := addLine maxL ("  L1D_miso: " ++ Nat.repr v) st
      let (fft, st) := rd data 2 st
      let st := addLine maxL ("  L1D_fft_size: " ++ L1B_first_sub_fft_size_map.getD fft "") st
      let (v, st) := rd data 3 st
      let st := addLine maxL ("  L1D_reduced_carriers: " ++ Nat.repr v) st
      let (gi, st) := rd data 4 st
      let st := addLine maxL ("  L1D_guard_interval: " ++ L1B_first_sub_guard_interval_map.getD gi "") st
      let (v, st) := rd data 11 st
      let st := addLine maxL ("  L1D_num_ofdm_symbols: " ++ Nat.repr v) st
      let (v, st) := rd data 5 st
      let st := addLine maxL ("  L1D_scattered_pilot_pattern: " ++ Nat.repr v) st
      let (spb, st) := rd data 3 st
      let st := addLine maxL ("  L1D_scattered_pilot_boost: " ++ L1B_first_sub_scattered_pilot_boost_map.getD spb "") st
      let (sbsF, st) := rd data 1 st
      let st := addLine maxL ("  L1D_sbs_first: " ++ Nat.repr sbsF) st
      let (sbsL, st) := rd data 1 st
      let st := addLine maxL ("  L1D_sbs_last: " ++ Nat.repr sbsL) st
      (mimo, sbsF, sbsL, st)
    else (0, 0, 0, st)
  let st :=
    if 0 < nsub then
      let (v, st) := rd data 1 st
      addLine maxL ("  L1D_subframe_multiplex: " ++ Nat.repr v) st
    else st
  let (v, st) := rd data 1 st
  let st := addLine maxL ("  L1D_frequency_interleaver: " ++ Nat.repr v) st
  let st :=
    if (i = 0 ∧ (fsSbsFirst ≠ 0 ∨ fsSbsLast ≠ 0)) ∨ (0 < i ∧ (sbsF ≠ 0 ∨ sbsL ≠ 0)) then
      let (v, st) := rd data 13 st
      addLine maxL ("  L1D_sbs_null_cells: " ++ Nat.repr v) st
    else st
  let (nplp, st) := rd data 6 st
  let st := addLine maxL ("  L1D_num_plp: " ++ Nat.repr nplp) st
  plpLoop data maxL i fsMimo numRf mimo 0 (nplp + 1) st

/-- Subframe loop: `for (i = 0; i <= L1B_num_subframes; i++)`. -/
def subframeLoop (data : List Nat) (maxL nsub fsMimo fsSbsFirst fsSbsLast numRf : Nat) :
    Nat → Nat → L1St → L1St
  | _, 0, st => st
  | i, k + 1, st =>
    subframeLoop data maxL nsub fsMimo fsSbsFirst fsSbsLast numRf (i + 1) k
      (subframeBody data maxL nsub fsMimo fsSbsFirst fsSbsLast numRf i st)

/-- Second pass over subframes (lines 2230-2239): for `i > 0` read and print
`L1D_mimo_mixed`; the mixed-details branch is an empty placeholder in the
source, so no further bits are read. -/
def secondPass (data : List Nat) (maxL : Nat) : Nat → Nat → L1St → L1St
  | _, 0, st => st
  | i, k + 1, st =>
    let st :=
      if 0 < i then
        let (mm, st) := rd data 1 st
        addLine maxL ("Subframe #" ++ Nat.repr i ++ " L1D_mimo_mixed: " ++ Nat.repr mm) st
      else st
    secondPass data maxL (i + 1) k st

/-- Remaining-bits trailer loop (lines 2249-2263): emit the leftover bits as
runs of `'0'`/`'1'` characters, flushed every 64 bits and once at the end.
`buf` holds the pending chunk in reverse. -/
def trailerBits (data : List Nat) (maxL : Nat) : Nat → Nat → List Char → L1St → L1St
  | 0, _, buf, st =>
    if buf = [] then st else addLine maxL (String.mk buf.reverse) st
  | fuel + 1, off, buf, st =>
    let c : Char := if bitAt data off = 1 then '1' else '0'
    let buf := c :: buf
    if buf.length = 64 then
      trailerBits data maxL fuel (off + 1) [] (addLine maxL (String.mk buf.reverse) st)
    else
      trailerBits data maxL fuel (off + 1) buf st

/-- `parse_l1_data(data, len, display_lines, line_count, max_lines)`
(lines 2034-2266), with `cnt0` the incoming `*line_count`.  Returns the final
state: emitted lines (in reverse in `rev`) and the final `bit_offset`. -/
def parse_l1_data (data : List Nat) (len cnt0 maxL : Nat) : L1St :=
  let st : L1St := ⟨0, cnt0, []⟩
  let st := addLine maxL "--- L1-Basic Signaling ---" st
  let (v, st) := rd data 3 st
  let st := addLine maxL ("L1B_version: " ++ Nat.repr v) st
  let (v, st) := rd data 1 st
  let st := addLine maxL ("L1B_mimo_scattered_pilot_encoding: " ++ Nat.repr v) st
  let (v, st) := rd data 1 st
  let st := addLine maxL ("L1B_lls_flag: " ++ Nat.repr v) st
  let (tif, st) := rd data 2 st
  let st := addLine maxL ("L1B_time_info_flag: " ++ Nat.repr tif) st
  let (v, st) := rd data 1 st
  let st := addLine maxL ("L1B_return_channel_flag: " ++ Nat.repr v) st
  let (papr, st) := rd data 2 st
  let st := addLine maxL ("L1B_papr_reduction: " ++ L1B_papr_reduction_map.getD papr "") st
  let (flm, st) := rd data 1 st
  let st := addLine maxL ("L1B_frame_length_mode: " ++ Nat.repr flm) st
  let st :=
    if flm = 0 then
      let (v, st) := rd data 10 st
      let st := addLine maxL ("L1B_frame_length: " ++ Nat.repr v) st
      let (v, st) := rd data 13 st
      addLine maxL ("L1B_excess_samples_per_symbol: " ++ Nat.repr v) st
    else
      let (v, st) := rd data 16 st
      let st := addLine maxL ("L1B_time_offset: " ++ Nat.repr v) st
      let (v, st) := rd data 7 st
      addLine maxL ("L1B_additional_samples: " ++ Nat.repr v) st
  let (nsub, st) := rd data 8 st
  let st := addLine maxL ("L1B_num_subframes: " ++ Nat.repr nsub) st
  let (v, st) := rd data 3 st
  let st := addLine maxL ("L1B_preamble_num_symbols: " ++ Nat.repr v) st
  let (v, st) := rd data 3 st
  let st := addLine maxL ("L1B_preamble_reduced_carriers: " ++ Nat.repr v) st
  let (v, st) := rd data 2 st
  let st := addLine maxL ("L1B_L1_Detail_content_tag: " ++ Nat.repr v) st
  let (v, st) := rd data 13 st
  let st := addLine maxL ("L1B_L1_Detail_size_bytes: " ++ Nat.repr v) st
  let (fec, st) := rd data 3 st
  let st := addLine maxL ("L1B_L1_Detail_fec_type: " ++ L1B_L1_Detail_fec_type_map.getD fec "") st
  let (par, st) := rd data 2 st
  let st := addLine maxL ("L1B_L1_Detail_additional_parity_mode: " ++ L1B_L1_Detail_additional_parity_mode_map.getD par "") st
  let (v, st) := rd data 19 st
  let st := addLine maxL ("L1B_L1_Detail_total_cells: " ++ Nat.repr v) st
  let (fsMimo, st) := rd data 1 st
  let st := addLine maxL ("L1B_first_sub_mimo: " ++ Nat.repr fsMimo) st
  let (v, st) := rd data 2 st
  let st := addLine maxL ("L1B_first_sub_miso: " ++ Nat.repr v) st
  let (fft, st) := rd data 2 st
  let st := addLine maxL ("L1B_first_sub_fft_size: " ++ L1B_first_sub_fft_size_map.getD fft "") st
  let (v, st) := rd data 3 st
  let st := addLine maxL ("L1B_first_sub_reduced_carriers: " ++ Nat.repr v) st
  let (gi, st) := rd data 4 st
  let st := addLine maxL ("L1B_first_sub_guard_interval: " ++ L1B_first_sub_guard_interval_map.getD gi "") st
  let (v, st) := rd data 11 st
  let st := addLine maxL ("L1B_first_sub_num_ofdm_symbols: " ++ Nat.repr v) st
  let (v, st) := rd data 5 st
  let st := addLine maxL ("L1B_first_sub_scattered_pilot_pattern: " ++ Nat.repr v) st
  let (spb, st) := rd data 3 st
  let st := addLine maxL ("L1B_first_sub_scattered_pilot_boost: " ++ L1B_first_sub_scattered_pilot_boost_map.getD spb "") st
  let (fsSbsFirst, st) := rd data 1 st
  let st := addLine maxL ("L1B_first_sub_sbs_first: " ++ Nat.repr fsSbsFirst) st
  let (fsSbsLast, st) := rd data 1 st
  let st := addLine maxL ("L1B_first_sub_sbs_last: " ++ Nat.repr fsSbsLast) st
  let (fsMM, st) := rd data 1 st
  let st := addLine maxL ("L1B_first_sub_mimo_mixed: " ++ Nat.repr fsMM) st
  let (v, st) := rd data 47 st
  let st := addLine maxL ("L1B_reserved: " ++ Nat.repr v) st
  let (v, st) := rd data 32 st
  let st := addLine maxL ("L1B_crc: 0x" ++ hex8 v) st
  let st := addLine maxL " " st
  let st := addLine maxL "--- L1-Detail Signaling ---" st
  let (v, st) := rd data 4 st
  let st := addLine maxL ("L1D_version: " ++ Nat.repr v) st
  let (numRf, st) := rd data 3 st
  let st := addLine maxL ("L1D_num_rf: " ++ Nat.repr numRf) st
  let st := rfLoop data maxL 0 numRf st
  let st :=
    if tif ≠ 0 then
      let (v, st) := rd data 32 st
      let st := addLine maxL ("L1D_time_sec: " ++ Nat.repr v) st
      let (v, st) := rd data 10 st
      let st := addLine maxL ("L1D_time_msec: " ++ Nat.repr v) st
      if tif ≠ 1 then
        let (v, st) := rd data 10 st
        let st := addLine maxL ("L1D_time_usec: " ++ Nat.repr v) st
        if tif ≠ 2 then
          let (v, st) := rd data 10 st
          addLine maxL ("L1D_time_nsec: " ++ Nat.repr v) st
        else st
      else st
    else st
  let st := subframeLoop data maxL nsub fsMimo fsSbsFirst fsSbsLast numRf 0 (nsub + 1) st
  let (v, st) := rd data 16 st
  let st := addLine maxL ("L1D_bsid: " ++ Nat.repr v) st
  let st := secondPass data maxL 0 (nsub + 1) st
  let (v, st) := rd data 32 st
  let st := addLine maxL ("L1D_crc: 0x" ++ hex8 v) st
  let st :=
    if st.off < len * 8 then
      let st := addLine maxL " " st
      let st := addLine maxL "--- Remaining Unparsed Bits ---" st
      let st := trailerBits data maxL (len * 8 - st.off) st.off [] st
      { st with off := len * 8 }
    else st
  addLine maxL " " st

/-- The decoded field sequence, in emission order. -/
def l1Lines (data : List Nat) (len cnt0 maxL : Nat) : List String :=
  (parse_l1_data data len cnt0 maxL).rev.reverse

/-! ## Base64 decoder (`base64_decode`, lines 1948-1995)

`B64Result` separates the three observable outcomes of the C routine:
`.ub` marks an out-of-bounds memory access (indexing `b64_decode_table`
with a byte outside 0..127 — `char` is signed, so bytes ≥ 128 index with a
negative value — or reading `data[len-1]` of the empty string);
`.fail` is a `NULL` return; `.ok` carries the returned buffer, with `none`
for bytes `malloc` left uninitialized (slots skipped when `v3`/`v4` is -1). -/

inductive B64Result where
  | ub : B64Result
  | fail : B64Result
  | ok : List (Option Nat) → B64Result
deriving DecidableEq

/-- The 128-entry decode table (lines 1948-1957), verbatim. -/
def b64_decode_table : List Int :=
  [-1, -1, -1, -1, -1, -1, -1, -1, -1, -1, -1, -1, -1, -1, -1, -1,
   -1, -1, -1, -1, -1, -1, -1, -1, -1, -1, -1, -1, -1, -1, -1, -1,
   -1, -1, -1, -1, -1, -1, -1, -1, -1, -1, -1, 62, -1, -1, -1, 63,
   52, 53, 54, 55, 56, 57, 58, 59, 60, 61, -1, -1, -1, -1, -1, -1,
   -1,  0,  1,  2,  3,  4,  5,  6,  7,  8,  9, 10, 11, 12, 13, 14,
   15, 16, 17, 18, 19, 20, 21, 22, 23, 24, 25, -1, -1, -1, -1, -1,
   -1, 26, 27, 28, 29, 30, 31, 32, 33, 34, 35, 36, 37, 38, 39, 40,
   41, 42, 43, 44, 45, 46, 47, 48, 49, 50, 51, -1, -1, -1, -1, -1]

/-- `b64_decode_table[(int)data[i]]`; `none` = access outside the table. -/
def b64Tab (c : Char) : Option Int :=
  b64_decode_table.get? c.toNat

/-- Value used for the 3rd and 4th symbols: `(c == '=') ? -1 : table[c]`
(the `'='` test short-circuits the table access). -/
def b64v34 (c : Char) : Option Int :=
  if c = '=' then some (-1) else b64Tab c

/-- The decode loop (lines 1974-1992), one quartet per step.  Writes are per
quartet: byte 0 always, byte 1 only when `v3 != -1`, byte 2 only when
`v4 != -1`; unwritten slots stay `none`.  C shift/or/mask arithmetic on the
6-bit values is rendered with `*`, `/`, `%`; the one signed case,
`v3 & 3` with `v3 = -1`, is `(v3 % 4).toNat = 3` (two's complement). -/
def b64Loop : List Char → B64Result
  | [] => .ok []
  | c1 :: c2 :: c3 :: c4 :: rest =>
    match b64Tab c1, b64Tab c2, b64v34 c3, b64v34 c4 with
    | some v1, some v2, some v3, some v4 =>
      if v1 = -1 ∨ v2 = -1 then .fail
      else
        let b0 : Option Nat := some ((v1.toNat * 4 + v2.toNat / 16) % 256)
        let b1 : Option Nat :=
          if v3 = -1 then none
          else some ((v2.toNat % 16 * 16 + v3.toNat / 4) % 256)
        let b2 : Option Nat :=
          if v4 = -1 then none
          else some (((v3 % 4).toNat * 64 + v4.toNat) % 256)
        match b64Loop rest with
        | .ok bs => .ok (b0 :: b1 :: b2 :: bs)
        | r => r
    | _, _, _, _ => .ub
  | _ => .ub

/-- `base64_decode(data, &out_len)` (lines 1963-1995).  A length that is not
a multiple of 4 fails; the empty string then evaluates `data[len - 1]` with
`len = 0`, an out-of-bounds read (`.ub`).  Otherwise the output length is
`len/4*3` minus one per trailing `'='`, and the returned buffer is the first
`out_len` slots written by the loop. -/
def base64_decode (s : String) : B64Result :=
  let cs := s.data
  let len := cs.length
  if len % 4 ≠ 0 then .fail
  else if len = 0 then .ub
  else
    let outLen0 := len / 4 * 3
    let outLen1 := if cs.getD (len - 1) ' ' = '=' then outLen0 - 1 else outLen0
    let outLen := if cs.getD (len - 2) ' ' = '=' then outLen1 - 1 else outLen1
    match b64Loop cs with
    | .ok bs => .ok (bs.take outLen)
    | r => r

/-- The valid Base64 alphabet of the specification (excluding padding). -/
def isB64Char (c : Char) : Bool :=
  (('A' ≤ c && c ≤ 'Z') || ('a' ≤ c && c ≤ 'z') || ('0' ≤ c && c ≤ '9')
    || c = '+' || c = '/')

/-! ## Status mini-parser (`parse_status_value`, lines 307-314) -/

/-- `strstr(s, key)` as the index of the first match: `key` matches at `i`
when the `key.length` characters of `s` starting at `i` are exactly `key`. -/
def strstrIdx (s key : List Char) : Option Nat :=
  if s.take key.length = key then some 0
  else
    match s with
    | [] => none
    | _ :: t => (strstrIdx t key).map (· + 1)

/-- C `isspace` characters. -/
def isSpaceCh (c : Char) : Bool :=
  c = ' ' || c = '\t' || c = '\n' || c = '\x0b' || c = '\x0c' || c = '\r'

/-- Hexadecimal digit value of a character, if any. -/
def hexVal (c : Char) : Option Nat :=
  if '0' ≤ c && c ≤ '9' then some (c.toNat - 48)
  else if 'a' ≤ c && c ≤ 'f' then some (c.toNat - 87)
  else if 'A' ≤ c && c ≤ 'F' then some (c.toNat - 55)
  else none

/-- Digit value in a given base, if valid for that base. -/
def digVal (base : Nat) (c : Char) : Option Nat :=
  match hexVal c with
  | some v => if v < base then some v else none
  | none => none

/-- Accumulate digits of `base` until the first invalid character. -/
def digitsAcc (base : Nat) : List Char → Nat → Nat
  | [], acc => acc
  | c :: t, acc =>
    match digVal base c with
    | some v => digitsAcc base t (acc * base + v)
    | none => acc

/-- `strtol(p, NULL, 0)`: skip spaces, optional sign, then auto-detect the
base — `0x`/`0X` followed by a hex digit is hexadecimal, a leading `0` is
octal, anything else decimal; parsing stops at the first invalid character
and yields 0 when no digits are consumed.  (`long` overflow clamping is not
modelled; the values in scope are far below `LONG_MAX`.) -/
def strtol0 (cs0 : List Char) : Int :=
  let cs1 := cs0.dropWhile isSpaceCh
  let sgn : Bool × List Char :=
    match cs1 with
    | '-' :: t => (true, t)
    | '+' :: t => (false, t)
    | _ => (false, cs1)
  let mag : Nat :=
    match sgn.2 with
    | '0' :: c :: rest =>
      if c = 'x' || c = 'X' then
        match rest with
        | d :: _ => if (hexVal d).isSome then digitsAcc 16 rest 0 else 0
        | [] => 0
      else digitsAcc 8 (c :: rest) 0
    | _ => digitsAcc 10 sgn.2 0
  if sgn.1 then -(mag : Int) else (mag : Int)

/-- `parse_status_value(status_str, key)` (lines 307-314): find the first
occurrence of `key`, then `strtol(found + strlen(key), NULL, 0)`;
`-999` when `strstr` returns `NULL`. -/
def parse_status_value (blob key : String) : Int :=
  match strstrIdx blob.data key.data with
  | some i => strtol0 (blob.data.drop (i + key.data.length))
  | none => -999

/-- Specification-side occurrence predicate: `key` occurs in `s` at some
index (an index beyond `s.length` can only match the empty key, which then
also matches at 0, so the bound loses nothing). -/
def occursIn (key s : List Char) : Prop :=
  ∃ i ∈ List.range (s.length + 1), (s.drop i).take key.length = key

instance (key s : List Char) : Decidable (occursIn key s) := by
  unfold occursIn
  infer_instance

/-! ## ModCod → SNR table (`snr_table`, lines 114-152; `get_snr_for_modcod`,
lines 185-192)

The C table stores `float` constants; they are compile-time decimal
literals that the lookup only copies (no arithmetic), so they are modelled
as exact rationals. -/

structure ModcodSnr where
  mod : String
  cod : String
  min_snr : Rat
  max_snr : Rat

set_option maxHeartbeats 1600000 in
/-- The static table, verbatim (the `\x7b\x7b0\x7d\x7d` sentinel terminates
the C scan and is represented by the end of the list). -/
def snr_table : List ModcodSnr :=
  [⟨"QPSK", "2/15", -6.23, -5.06⟩, ⟨"QPSK", "3/15", -4.32, -2.97⟩,
   ⟨"QPSK", "4/15", -2.89, -1.36⟩, ⟨"QPSK", "5/15", -1.7, -0.08⟩,
   ⟨"QPSK", "6/15", -0.54, 1.15⟩, ⟨"QPSK", "7/15", 0.3, 2.3⟩,
   ⟨"QPSK", "8/15", 1.16, 3.44⟩, ⟨"QPSK", "9/15", 1.97, 4.7⟩,
   ⟨"QPSK", "10/15", 2.77, 5.97⟩, ⟨"QPSK", "11/15", 3.6, 7.46⟩,
   ⟨"QPSK", "12/15", 4.49, 9.15⟩, ⟨"QPSK", "13/15", 5.53, 11.56⟩,
   ⟨"16QAM", "2/15", -2.73, -1.14⟩, ⟨"16QAM", "3/15", -0.25, 1.45⟩,
   ⟨"16QAM", "4/15", 1.46, 3.41⟩, ⟨"16QAM", "5/15", 2.82, 4.78⟩,
   ⟨"16QAM", "6/15", 4.21, 6.27⟩, ⟨"16QAM", "7/15", 5.21, 7.58⟩,
   ⟨"16QAM", "8/15", 6.3, 8.96⟩, ⟨"16QAM", "9/15", 7.32, 10.28⟩,
   ⟨"16QAM", "10/15", 8.36, 11.73⟩, ⟨"16QAM", "11/15", 9.5, 13.22⟩,
   ⟨"16QAM", "12/15", 10.57, 14.97⟩, ⟨"16QAM", "13/15", 11.83, 17.44⟩,
   ⟨"64QAM", "2/15", -0.26, 1.6⟩, ⟨"64QAM", "3/15", 2.27, 4.3⟩,
   ⟨"64QAM", "4/15", 4.07, 6.22⟩, ⟨"64QAM", "5/15", 5.5, 7.74⟩,
   ⟨"64QAM", "6/15", 6.96, 9.31⟩, ⟨"64QAM", "7/15", 8.01, 10.65⟩,
   ⟨"64QAM", "8/15", 9.11, 12.03⟩, ⟨"64QAM", "9/15", 10.15, 13.34⟩,
   ⟨"64QAM", "10/15", 11.21, 14.77⟩, ⟨"64QAM", "11/15", 12.38, 16.23⟩,
   ⟨"64QAM", "12/15", 13.48, 17.95⟩, ⟨"64QAM", "13/15", 14.75, 20.37⟩,
   ⟨"256QAM", "2/15", 2.37, 4.21⟩, ⟨"256QAM", "3/15", 5.0, 7.0⟩,
   ⟨"256QAM", "4/15", 6.88, 8.99⟩, ⟨"256QAM", "5/15", 8.35, 10.55⟩,
   ⟨"256QAM", "6/15", 9.85, 12.15⟩, ⟨"256QAM", "7/15", 10.93, 13.51⟩,
   ⟨"256QAM", "8/15", 12.05, 14.9⟩, ⟨"256QAM", "9/15", 13.1, 16.2⟩,
   ⟨"256QAM", "10/15", 14.18, 17.61⟩, ⟨"256QAM", "11/15", 15.35, 19.05⟩,
   ⟨"256QAM", "12/15", 16.45, 20.73⟩, ⟨"256QAM", "13/15", 17.72, 23.1⟩,
   ⟨"1024QAM", "2/15", 4.97, 6.81⟩, ⟨"1024QAM", "3/15", 7.69, 9.7⟩,
   ⟨"1024QAM", "4/15", 9.61, 11.75⟩, ⟨"1024QAM", "5/15", 11.12, 13.34⟩,
   ⟨"1024QAM", "6/15", 12.65, 14.97⟩, ⟨"1024QAM", "7/15", 13.75, 16.35⟩,
   ⟨"1024QAM", "8/15", 14.89, 17.75⟩, ⟨"1024QAM", "9/15", 15.95, 19.06⟩,
   ⟨"1024QAM", "10/15", 17.03, 20.46⟩, ⟨"1024QAM", "11/15", 18.2, 21.9⟩,
   ⟨"1024QAM", "12/15", 19.31, 23.55⟩, ⟨"1024QAM", "13/15", 20.58, 25.88⟩,
   ⟨"4096QAM", "2/15", 7.58, 9.41⟩, ⟨"4096QAM", "3/15", 10.38, 12.4⟩,
   ⟨"4096QAM", "4/15", 12.34, 14.45⟩, ⟨"4096QAM", "5/15", 13.88, 16.07⟩,
   ⟨"4096QAM", "6/15", 15.44, 17.72⟩, ⟨"4096QAM", "7/15", 16.56, 19.11⟩,
   ⟨"4096QAM", "8/15", 17.72, 20.52⟩, ⟨"4096QAM", "9/15", 18.79, 21.84⟩,
   ⟨"4096QAM", "10/15", 19.88, 23.25⟩, ⟨"4096QAM", "11/15", 21.05, 24.69⟩,
   ⟨"4096QAM", "12/15", 22.16, 26.34⟩, ⟨"4096QAM", "13/15", 23.43, 28.62⟩]

/-- `get_snr_for_modcod(mod, cod)`: linear scan, first entry whose two
strings `strcmp` equal to the arguments; `NULL` (`none`) when absent. -/
def get_snr_for_modcod (m c : String) : Option ModcodSnr :=
  List.find? (fun e => e.mod = m && e.cod = c) snr_table

/-! ## Test fixtures

`mkFix` packs a list of (width, value) fields MSB-first into bytes, exactly
the layout `get_bits` reads back. -/

/-- The `w` bits of `v`, most significant first. -/
def fieldBits (w v : Nat) : List Nat :=
  (List.range w).map (fun k => v / 2 ^ (w - 1 - k) % 2)

/-- Pack a bit list into bytes (big-endian in each byte); a final partial
byte is padded with zero bits. -/
def bitsToBytes : List Nat → List Nat
  | b0 :: b1 :: b2 :: b3 :: b4 :: b5 :: b6 :: b7 :: rest =>
    (b0 * 128 + b1 * 64 + b2 * 32 + b3 * 16 + b4 * 8 + b5 * 4 + b6 * 2 + b7)
      :: bitsToBytes rest
  | [] => []
  | l => [(l.foldl (fun a b => 2 * a + b) 0) * 2 ^ (8 - l.length)]

/-- Pack (width, value) fields into a byte buffer. -/
def mkFix (fs : List (Nat × Nat)) : List Nat :=
  bitsToBytes ((fs.map (fun p => fieldBits p.1 p.2)).flatten)

/-- Field list of the single-subframe, single-PLP, non-MIMO, no-RF-bonding
fixture: raw `L1B_num_subframes = 0`, raw `L1D_num_plp = 0`,
`L1B_time_info_flag = 2` (sec/msec/usec present),
`L1B_first_sub_sbs_first = 1` (so `L1D_sbs_null_cells` is present),
`L1D_plp_fec_type = 1`, `L1D_plp_mod = 3` (256-QAM), `L1D_plp_cod = 5`
(7/15), `L1D_plp_TI_mode = 0`, `L1D_plp_layer = 0`, `L1D_plp_type = 0`.
Total 416 bits = 52 bytes, so the final 32-bit `L1D_crc` read is exactly
the last 32 bits of the buffer.  The signalled `L1B_L1_Detail_size_bytes`
is 27, matching the 216 detail bits. -/
def fix1Fields : List (Nat × Nat) :=
  [(3, 1), (1, 0), (1, 0), (2, 2), (1, 0), (2, 0), (1, 0),
   (10, 100), (13, 0),
   (8, 0), (3, 1), (3, 0), (2, 0), (13, 27), (3, 0), (2, 0), (19, 6342),
   (1, 0), (2, 0), (2, 1), (3, 0), (4, 5), (11, 72), (5, 3), (3, 1),
   (1, 1), (1, 0), (1, 0), (47, 0), (32, 0x12345678),
   (4, 0), (3, 0),
   (32, 1234567890), (10, 500), (10, 250),
   (1, 1), (13, 192), (6, 0),
   (6, 0), (1, 1), (2, 0), (24, 0), (24, 839936), (2, 0), (4, 1),
   (4, 3), (4, 5), (2, 0), (15, 0), (1, 0),
   (16, 11111), (32, 0x89ABCDEF)]

def fix1 : List Nat := mkFix fix1Fields

/-- `fix1` with the 4-bit `L1D_plp_mod` field (index 45) set to 6, a value
the mod table maps to `"N/A"`. -/
def fix2 : List Nat := mkFix (fix1Fields.set 45 (4, 6))

/-- `fix1` with `L1B_L1_Detail_size_bytes` signalled as 28 (one byte more
than the 27 bytes the grammar consumes) and one extra `0x00` byte appended:
the detail block then ends, per the signalled size, at bit 424, while the
grammar's `L1D_crc` read ends at bit 416. -/
def fix4 : List Nat := mkFix (fix1Fields.set 13 (13, 28)) ++ [0]

/-- The exact field sequence `parse_l1_data` emits for `fix1` (established
below by `c2_fixture_decode`). -/
def fix1Lines : List String :=
  ["--- L1-Basic Signaling ---", "L1B_version: 1",
   "L1B_mimo_scattered_pilot_encoding: 0", "L1B_lls_flag: 0",
   "L1B_time_info_flag: 2", "L1B_return_channel_flag: 0",
   "L1B_papr_reduction: None", "L1B_frame_length_mode: 0",
   "L1B_frame_length: 100", "L1B_excess_samples_per_symbol: 0",
   "L1B_num_subframes: 0", "L1B_preamble_num_symbols: 1",
   "L1B_preamble_reduced_carriers: 0", "L1B_L1_Detail_content_tag: 0",
   "L1B_L1_Detail_size_bytes: 27", "L1B_L1_Detail_fec_type: BCH+LDPC 16K",
   "L1B_L1_Detail_additional_parity_mode: 0%", "L1B_L1_Detail_total_cells: 6342",
   "L1B_first_sub_mimo: 0", "L1B_first_sub_miso: 0",
   "L1B_first_sub_fft_size: 16K", "L1B_first_sub_reduced_carriers: 0",
   "L1B_first_sub_guard_interval: GI_7/384", "L1B_first_sub_num_ofdm_symbols: 72",
   "L1B_first_sub_scattered_pilot_pattern: 3", "L1B_first_sub_scattered_pilot_boost: 3dB",
   "L1B_first_sub_sbs_first: 1", "L1B_first_sub_sbs_last: 0",
   "L1B_first_sub_mimo_mixed: 0", "L1B_reserved: 0", "L1B_crc: 0x12345678",
   " ", "--- L1-Detail Signaling ---", "L1D_version: 0", "L1D_num_rf: 0",
   "L1D_time_sec: 1234567890", "L1D_time_msec: 500", "L1D_time_usec: 250",
   " ", "Subframe #0:", "  L1D_frequency_interleaver: 1",
   "  L1D_sbs_null_cells: 192", "  L1D_num_plp: 0", "    PLP #0:",
   "      L1D_plp_id: 0", "      L1D_plp_lls_flag: 1", "      L1D_plp_layer: 0",
   "      L1D_plp_start: 0", "      L1D_plp_size: 839936",
   "      L1D_plp_scrambler_type: 0", "      L1D_plp_fec_type: BCH+LDPC 64K",
   "      L1D_plp_mod: 256-QAM", "      L1D_plp_cod: 7/15",
   "      L1D_plp_TI_mode: 0", "      L1D_plp_fec_block_start: 0",
   "      L1D_plp_type: 0", "L1D_bsid: 11111", "L1D_crc: 0x89ABCDEF", " "]

/-! ## Support lemmas for the bit cursor -/

theorem getBitsAux_eq (data : List Nat) (k : Nat) :
    ∀ off acc, getBitsAux data off k acc = (acc + bitsVal data off k, off + k) := by
  induction k with
  | zero => intro off acc; simp [getBitsAux, bitsVal, get_bits]
  | succ k ih =>
    intro off acc
    have hb : bitsVal data off (k + 1) = bitAt data off * 2 ^ k + bitsVal data (off + 1) k := by
      show (getBitsAux data off (k + 1) 0).1 = _
      show (getBitsAux data (off + 1) k (0 + bitAt data off * 2 ^ k)).1 = _
      rw [ih]
      simp
    show getBitsAux data (off + 1) k (acc + bitAt data off * 2 ^ k) = _
    rw [ih, hb]
    refine Prod.ext ?_ ?_ <;> simp <;> omega

theorem get_bits_eq (data : List Nat) (off n : Nat) :
    get_bits data off n = (bitsVal data off n, off + n) := by
  show getBitsAux data off n 0 = _
  rw [getBitsAux_eq]
  simp

theorem bitsVal_zero (data : List Nat) (off : Nat) : bitsVal data off 0 = 0 := rfl

theorem bitsVal_succ (data : List Nat) (off k : Nat) :
    bitsVal data off (k + 1) = bitAt data off * 2 ^ k + bitsVal data (off + 1) k := by
  show (getBitsAux data off (k + 1) 0).1 = _
  show (getBitsAux data (off + 1) k (0 + bitAt data off * 2 ^ k)).1 = _
  rw [getBitsAux_eq]
  simp

theorem bitsVal_add (data : List Nat) (m : Nat) :
    ∀ n off, bitsVal data off (n + m) = bitsVal data off n * 2 ^ m + bitsVal data (off + n) m := by
  intro n
  induction n with
  | zero => intro off; simp [bitsVal_zero]
  | succ n ih =>
    intro off
    have h1 : n + 1 + m = (n + m) + 1 := by omega
    rw [h1, bitsVal_succ, bitsVal_succ, ih (off + 1)]
    have h2 : off + 1 + n = off + (n + 1) := by omega
    rw [h2, pow_add]
    ring

theorem bitAt_le_one (data : List Nat) (p : Nat) : bitAt data p ≤ 1 := by
  have := Nat.mod_lt (data.getD (p / 8) 0 / 2 ^ (7 - p % 8)) (show 0 < 2 by norm_num)
  unfold bitAt
  omega

theorem bitsVal_lt (data : List Nat) (n : Nat) : ∀ off, bitsVal data off n < 2 ^ n := by
  induction n with
  | zero => intro off; simp [bitsVal_zero]
  | succ n ih =>
    intro off
    rw [bitsVal_succ]
    have h1 := ih (off + 1)
    have h2 := bitAt_le_one data off
    have h3 : bitAt data off * 2 ^ n ≤ 2 ^ n := by
      calc bitAt data off * 2 ^ n ≤ 1 * 2 ^ n := Nat.mul_le_mul_right _ h2
      _ = 2 ^ n := by ring
    have : (2 : Nat) ^ (n + 1) = 2 ^ n + 2 ^ n := by ring
    omega

theorem bitsVal_one (data : List Nat) (off : Nat) : bitsVal data off 1 = bitAt data off := by
  rw [bitsVal_succ, bitsVal_zero]
  simp

theorem msbValue_succ (data : List Nat) (off n : Nat) :
    msbValue data off (n + 1) = 2 * msbValue data off n + bitAt data (off + n) := by
  unfold msbValue
  rw [List.range_succ, List.foldl_append]
  simp

theorem bitsVal_eq_msbValue (data : List Nat) (n : Nat) :
    ∀ off, bitsVal data off n = msbValue data off n := by
  induction n with
  | zero => intro off; simp [bitsVal_zero, msbValue]
  | succ n ih =>
    intro off
    rw [msbValue_succ, ← ih off, bitsVal_add data 1 n off, bitsVal_one]
    ring

/-! ## Support lemmas for the status mini-parser -/

theorem strstrIdx_none_spec (key : List Char) :
    ∀ s, strstrIdx s key = none → ∀ i, (s.drop i).take key.length ≠ key := by
  intro s
  induction s with
  | nil =>
    intro h i
    by_contra hc
    have h0 : List.take key.length ([] : List Char) = key := by
      simpa using hc
    rw [strstrIdx] at h
    simp [h0] at h
  | cons c t ih =>
    intro h i
    rw [strstrIdx] at h
    by_cases hg : (c :: t).take key.length = key
    · simp [hg] at h
    · simp [hg] at h
      match i with
      | 0 => simpa using hg
      | i + 1 =>
        have := ih h i
        simpa using this

theorem strstrIdx_some_spec (key : List Char) :
    ∀ s i, strstrIdx s key = some i →
      (s.drop i).take key.length = key ∧ ∀ j < i, (s.drop j).take key.length ≠ key := by
  intro s
  induction s with
  | nil =>
    intro i h
    rw [strstrIdx] at h
    by_cases hg : List.take key.length ([] : List Char) = key
    · simp [hg] at h
      subst h
      exact ⟨by simpa using hg, by omega⟩
    · simp at h
      obtain ⟨hk, hi⟩ := h
      exact absurd (by simp [hk]) hg
  | cons c t ih =>
    intro i h
    rw [strstrIdx] at h
    by_cases hg : (c :: t).take key.length = key
    · simp [hg] at h
      subst h
      exact ⟨by simpa using hg, by omega⟩
    · simp [hg] at h
      obtain ⟨i0, hi0, hlift⟩ := h
      obtain ⟨h1, h2⟩ := ih i0 hi0
      subst hlift
      refine ⟨by simpa using h1, ?_⟩
      intro j hj
      match j with
      | 0 => simpa using hg
      | j + 1 =>
        have := h2 j (by omega)
        simpa using this

theorem occursIn_iff (key s : List Char) :
    occursIn key s ↔ ∃ i, (s.drop i).take key.length = key := by
  constructor
  · rintro ⟨i, _, h⟩
    exact ⟨i, h⟩
  · rintro ⟨i, h⟩
    by_cases hi : i ≤ s.length
    · exact ⟨i, by simp [List.mem_range]; omega, h⟩
    · have hdrop : s.drop i = [] := List.drop_eq_nil_of_le (by omega)
      rw [hdrop] at h
      simp at h
      refine ⟨0, by simp, ?_⟩
      simp [h]

/-! ## Claim theorems -/

set_option maxRecDepth 10000

/-- C1 (code bug): the claim — that `parse_l1_data` on a too-short buffer
keeps every bit access within `length*8` bits and ends with a clearly marked
truncation indicator — describes behavior the code does not have.  On the
empty buffer (0 bits available) the decoder runs to a final `bit_offset` of
351, i.e. it performs 351 bit reads all past the end of the buffer (in C,
out-of-bounds reads of adjacent memory), fabricates field lines such as
`L1B_version: 0` from that data, and emits no truncation marker. -/
theorem c1_truncated_input_reads_out_of_bounds :
    (parse_l1_data [] 0 0 1000).off = 351 ∧
    0 * 8 < (parse_l1_data [] 0 0 1000).off ∧
    "--- Truncated ---" ∉ l1Lines [] 0 0 1000 ∧
    "L1B_version: 0" ∈ l1Lines [] 0 0 1000 := by decide

/-- C2 (counterexample): on the single-subframe, single-PLP fixture the
decoder does NOT emit `L1B_num_subframes: 1` or `L1D_num_plp: 1` as the
claim states; it prints the raw field values (`0`), applying the +1 bias
only to its loop counts. -/
theorem c2_raw_counts_displayed :
    "L1B_num_subframes: 0" ∈ l1Lines fix1 52 0 1000 ∧
    "L1B_num_subframes: 1" ∉ l1Lines fix1 52 0 1000 ∧
    "  L1D_num_plp: 0" ∈ l1Lines fix1 52 0 1000 ∧
    "L1D_num_plp: 1" ∉ l1Lines fix1 52 0 1000 ∧
    "  L1D_num_plp: 1" ∉ l1Lines fix1 52 0 1000 := by decide

/-- C2 (amended): for the well-formed single-subframe, single-PLP, non-MIMO,
no-RF-bonding fixture `fix1`, the decoded field sequence is exactly
`fix1Lines` — in order: the `L1B_version` line, the raw-value line
`L1B_num_subframes: 0`, the raw-value line `  L1D_num_plp: 0`, the
modulation and code-rate names `256-QAM` and `7/15` from the fixed tables,
and a final field line `L1D_crc: 0x89ABCDEF` (followed only by the
routine's trailing blank line) whose value is exactly the last 32 bits of
the buffer. -/
theorem c2_fixture_decode :
    l1Lines fix1 52 0 1000 = fix1Lines ∧
    bitsVal fix1 (52 * 8 - 32) 32 = 0x89ABCDEF ∧
    (l1Lines fix1 52 0 1000).getD ((l1Lines fix1 52 0 1000).length - 2) ""
      = "L1D_crc: 0x" ++ hex8 (bitsVal fix1 (52 * 8 - 32) 32) ∧
    (l1Lines fix1 52 0 1000).getD ((l1Lines fix1 52 0 1000).length - 1) "" = " " := by
  refine ⟨by rfl, by decide, ?_, ?_⟩ <;> decide

/-- C3 (code bug): the claim — that any character outside the Base64
alphabet makes `base64_decode` fail — is the documented contract, but the
code only checks the first two symbols of each quartet.  `"AB#A"` contains
the invalid character `'#'` in position 3; the decode does not fail: it
returns a 3-byte buffer whose middle byte is never written (uninitialized
`malloc` memory, `none` in the model). -/
theorem c3_invalid_char_accepted :
    isB64Char '#' = false ∧
    base64_decode "AB#A" = .ok [some 0, none, some 192] ∧
    base64_decode "AB#A" ≠ .fail := by decide

/-- C4 (code bug): the claim — that the decoder consumes the padding implied
by `L1B_L1_Detail_size_bytes` before reading the terminating `L1D_crc` — is
the A/322 sizing rule, but the code reads the CRC immediately after the
`L1D_bsid`/`mimo_mixed` pass.  On `fix4` (signalled detail size 28 bytes,
one byte of padding) the emitted CRC is `0x89ABCDEF` (bits 384..416), not
the 32 bits ending the signalled detail length (bits 392..424, which are
`0xABCDEF00`); the padding shows up after the CRC as a raw-bits trailer. -/
theorem c4_crc_read_without_padding :
    "L1B_L1_Detail_size_bytes: 28" ∈ l1Lines fix4 53 0 1000 ∧
    "L1D_crc: 0x89ABCDEF" ∈ l1Lines fix4 53 0 1000 ∧
    bitsVal fix4 (200 + 28 * 8 - 32) 32 = 0xABCDEF00 ∧
    "L1D_crc: 0xABCDEF00" ∉ l1Lines fix4 53 0 1000 ∧
    "--- Remaining Unparsed Bits ---" ∈ l1Lines fix4 53 0 1000 ∧
    "00000000" ∈ l1Lines fix4 53 0 1000 := by decide

/-- C5 (code bug): the claim says the empty string (length 0, a multiple
of 4) decodes to an empty buffer with no out-of-bounds access, but the code
evaluates `data[len - 1]` and `data[len - 2]` with `len = 0` — reads far
outside the string (`.ub` in the model).  On a normal padded input the
claimed length formula does hold: `"TWFuTQ=="` (length 8, two trailing
`'='`) yields exactly `8/4*3 - 2 = 4` defined bytes. -/
theorem c5_empty_input_out_of_bounds :
    "".length % 4 = 0 ∧
    base64_decode "" = .ub ∧
    base64_decode "TWFuTQ==" = .ok [some 77, some 97, some 110, some 77] ∧
    "TWFuTQ==".length / 4 * 3 - 2 = 4 := by decide

/-- C6 (confirmed): reading `n` bits and then `m` bits sequentially yields
values and a final offset that agree with a single `n+m`-bit read:
`v1 * 2^m + v2` is the combined value, and both paths advance the offset by
exactly `n + m`. -/
theorem c6_get_bits_split (data : List Nat) (off n m : Nat)
    (hn : 0 < n) (hm : 0 < m) (hn16 : n ≤ 16) (hm16 : m ≤ 16) (hnm : n + m ≤ 32)
    (hfit : off + n + m ≤ 8 * data.length) :
    (get_bits data off n).1 * 2 ^ m + (get_bits data (get_bits data off n).2 m).1
        = (get_bits data off (n + m)).1 ∧
    (get_bits data (get_bits data off n).2 m).2 = (get_bits data off (n + m)).2 ∧
    (get_bits data off (n + m)).2 = off + (n + m) := by
  rw [get_bits_eq data off n, get_bits_eq data (off + n) m, get_bits_eq data off (n + m)]
  refine ⟨?_, by simp [Nat.add_assoc], rfl⟩
  simp only
  rw [bitsVal_add data m n off]

/-- C6 witness: the split law at the fixed buffer `0xA5 0x5A`, `n = 3`,
`m = 5` (values 5, 5; combined byte 0xA5 = 165 = 5*32 + 5). -/
theorem c6_get_bits_split_witness :
    (get_bits [0xA5, 0x5A] 0 3).1 * 2 ^ 5
        + (get_bits [0xA5, 0x5A] (get_bits [0xA5, 0x5A] 0 3).2 5).1
        = (get_bits [0xA5, 0x5A] 0 (3 + 5)).1 ∧
    (get_bits [0xA5, 0x5A] (get_bits [0xA5, 0x5A] 0 3).2 5).2
        = (get_bits [0xA5, 0x5A] 0 (3 + 5)).2 ∧
    (get_bits [0xA5, 0x5A] 0 (3 + 5)).2 = 0 + (3 + 5) :=
  c6_get_bits_split [0xA5, 0x5A] 0 3 5 (by decide) (by decide) (by decide) (by decide)
    (by decide) (by decide)

/-- C7 (counterexample): the claim's "returns -999 exactly when the key
does not occur" is false — the key `"x="` does occur in `"x=-999"`, yet the
parsed value is `-999`, indistinguishable from the absent-key sentinel. -/
theorem c7_sentinel_collision :
    occursIn "x=".data "x=-999".data ∧ parse_status_value "x=-999" "x=" = -999 :=
  ⟨⟨0, by decide, by decide⟩, by decide⟩

/-- C7 (amended): `parse_status_value` returns -999 whenever the key does
not occur as a substring of the blob; when it occurs, it returns the
`strtol` base-0 value of the text immediately after the FIRST occurrence —
hex after `0x`, octal after a leading `0`, decimal otherwise — which may
itself be -999.  The claim's two concrete examples hold. -/
theorem c7_status_value_spec :
    (∀ blob key : String, ¬ occursIn key.data blob.data →
        parse_status_value blob key = -999) ∧
    (∀ blob key : String, occursIn key.data blob.data →
        ∃ i, (blob.data.drop i).take key.data.length = key.data ∧
          (∀ j < i, (blob.data.drop j).take key.data.length ≠ key.data) ∧
          parse_status_value blob key = strtol0 (blob.data.drop (i + key.data.length))) ∧
    parse_status_value "foo=12 bar=34" "baz=" = -999 ∧
    parse_status_value "bps=18234567 pps=12345" "bps=" = 18234567 ∧
    parse_status_value "x=010" "x=" = 8 ∧
    parse_status_value "x=0x1A" "x=" = 26 := by
  refine ⟨?_, ?_, by decide, by decide, by decide, by decide⟩
  · intro blob key hno
    cases h : strstrIdx blob.data key.data with
    | none => simp [parse_status_value, h]
    | some i =>
      exfalso
      apply hno
      rw [occursIn_iff]
      exact ⟨i, (strstrIdx_some_spec key.data blob.data i h).1⟩
  · intro blob key hocc
    cases h : strstrIdx blob.data key.data with
    | none =>
      exfalso
      rw [occursIn_iff] at hocc
      obtain ⟨i, hi⟩ := hocc
      exact strstrIdx_none_spec key.data blob.data h i hi
    | some i =>
      obtain ⟨h1, h2⟩ := strstrIdx_some_spec key.data blob.data i h
      exact ⟨i, h1, h2, by simp [parse_status_value, h]⟩

/-- C7 witness: the absent-key branch at a concrete input. -/
theorem c7_status_value_spec_witness : parse_status_value "foo" "zz=" = -999 :=
  c7_status_value_spec.1 "foo" "zz=" (by decide)

/-- C8 (confirmed): `get_snr_for_modcod "QPSK" "7/15"` returns exactly the
(0.30, 2.30) entry; four more spot checks across modulations return the
fixed table values; every (mod, cod) pair present in the table looks up to
exactly its own entry, and every absent pair yields `none`. -/
theorem c8_snr_lookup :
    get_snr_for_modcod "QPSK" "7/15" = some ⟨"QPSK", "7/15", 0.3, 2.3⟩ ∧
    get_snr_for_modcod "16QAM" "7/15" = some ⟨"16QAM", "7/15", 5.21, 7.58⟩ ∧
    get_snr_for_modcod "64QAM" "13/15" = some ⟨"64QAM", "13/15", 14.75, 20.37⟩ ∧
    get_snr_for_modcod "256QAM" "2/15" = some ⟨"256QAM", "2/15", 2.37, 4.21⟩ ∧
    get_snr_for_modcod "4096QAM" "13/15" = some ⟨"4096QAM", "13/15", 23.43, 28.62⟩ ∧
    snr_table.map (fun e => get_snr_for_modcod e.mod e.cod) = snr_table.map some ∧
    (∀ m c : String, (∀ e ∈ snr_table, ¬(e.mod = m ∧ e.cod = c)) →
        get_snr_for_modcod m c = none) := by
  refine ⟨rfl, rfl, rfl, rfl, rfl, rfl, ?_⟩
  intro m c hall
  rw [get_snr_for_modcod, List.find?_eq_none]
  intro e he
  simp only [Bool.and_eq_true, decide_eq_true_eq]
  intro hc
  exact hall e he hc

/-- C8 witness: a pair absent from the table yields `none`. -/
theorem c8_snr_lookup_witness : get_snr_for_modcod "QPSK" "14/15" = none :=
  c8_snr_lookup.2.2.2.2.2.2 "QPSK" "14/15" (by decide)

/-- C9 (counterexample): the claim says unmapped enumeration values render
as `"Reserved"` or `"Unknown(<n>)"`, but `L1D_plp_mod = 6` renders as
`"N/A"` — on `fix2` the decoder emits `      L1D_plp_mod: N/A` and neither
of the claimed forms. -/
theorem c9_na_rendering :
    "      L1D_plp_mod: N/A" ∈ l1Lines fix2 52 0 1000 ∧
    "      L1D_plp_mod: Reserved" ∉ l1Lines fix2 52 0 1000 ∧
    "      L1D_plp_mod: Unknown(6)" ∉ l1Lines fix2 52 0 1000 := by decide

/-- C9 (amended): every enumerated field decoded by `parse_l1_data` indexes
within the bounds of its fixed table — each table has exactly `2^w` entries
for its `w`-bit field and `get_bits` always returns a value below `2^w` —
and the entries at unmapped/reserved positions are the fixed strings
`"Reserved"` or `"N/A"` (never a crash, and never `"Unknown(<n>)"`). -/
theorem c9_enum_bounds :
    (∀ (data : List Nat) (off n : Nat), (get_bits data off n).1 < 2 ^ n) ∧
    L1B_papr_reduction_map.length = 2 ^ 2 ∧
    L1B_L1_Detail_fec_type_map.length = 2 ^ 3 ∧
    L1B_L1_Detail_additional_parity_mode_map.length = 2 ^ 2 ∧
    L1B_first_sub_fft_size_map.length = 2 ^ 2 ∧
    L1B_first_sub_guard_interval_map.length = 2 ^ 4 ∧
    L1B_first_sub_scattered_pilot_boost_map.length = 2 ^ 3 ∧
    L1D_plp_fec_type_map.length = 2 ^ 4 ∧
    L1D_plp_mod_map.length = 2 ^ 4 ∧
    L1D_plp_cod_map.length = 2 ^ 4 ∧
    L1B_papr_reduction_map.getD 3 "" = "Reserved" ∧
    L1B_L1_Detail_fec_type_map.getD 6 "" = "Reserved" ∧
    L1B_L1_Detail_fec_type_map.getD 7 "" = "Reserved" ∧
    L1B_first_sub_fft_size_map.getD 3 "" = "Reserved" ∧
    L1B_first_sub_scattered_pilot_boost_map.getD 6 "" = "Reserved" ∧
    L1B_first_sub_scattered_pilot_boost_map.getD 7 "" = "Reserved" ∧
    (∀ v ∈ [6, 7, 14, 15], L1D_plp_fec_type_map.getD v "" = "Reserved") ∧
    (∀ v ∈ [6, 7, 14, 15], L1D_plp_mod_map.getD v "" = "N/A") ∧
    (∀ v ∈ [12, 13, 14, 15], L1D_plp_cod_map.getD v "" = "N/A") := by
  refine ⟨?_, ?_⟩
  · intro data off n
    rw [get_bits_eq]
    exact bitsVal_lt data n off
  · decide

/-- C10 (confirmed): `get_bits` is total and exact for every width up to 64
(which covers the decoder's single 47-bit `L1B_reserved` read): it returns
the MSB-first unsigned value of the next `num_bits` bits and advances the
offset by exactly `num_bits`; width 0 returns 0 and leaves the offset
unchanged. -/
theorem c10_get_bits_total :
    (∀ (data : List Nat) (off n : Nat), n ≤ 64 → off + n ≤ 8 * data.length →
        get_bits data off n = (msbValue data off n, off + n)) ∧
    (∀ (data : List Nat) (off : Nat), get_bits data off 0 = (0, off)) := by
  constructor
  · intro data off n _ _
    rw [get_bits_eq, bitsVal_eq_msbValue]
  · intro data off
    rw [get_bits_eq, bitsVal_zero]
    simp

/-- C10 witness: a single 47-bit read on a 6-byte buffer. -/
theorem c10_get_bits_total_witness :
    get_bits [165, 0, 0, 0, 0, 0] 0 47 = (165 * 2 ^ 39, 47) :=
  (c10_get_bits_total.1 [165, 0, 0, 0, 0, 0] 0 47 (by decide) (by decide)).trans (by decide)
